import Mathlib

/-!
Verification of the tool-augmented conversational agent script `ReAct.py`
against its specification. Python functions are shallowly embedded as Lean
definitions; a Python function that can raise an exception is embedded with
return type `Except PyExn _`, and the external collaborators (the Wikipedia
client, the agent executor, the process environment, the clock) are passed
in as explicit function parameters.
-/

set_option autoImplicit false

/-! ## Wikipedia tool (`get_wikipedia_summary`, ReAct.py lines 29-37) -/

/-- Exceptions that `wikipedia.summary` can raise, as seen by the handlers of
`get_wikipedia_summary`: a `DisambiguationError`, a `PageError`, or any other
exception (the `except Exception` catch-all). Each carries its `str(e)`
rendering. -/
inductive PyExn where
  | disambiguationError (msg : String)
  | pageError (msg : String)
  | otherExn (msg : String)
deriving DecidableEq, Repr

/-- The Python `str(e)` rendering of an exception value. -/
def strOfExn : PyExn → String
  | .disambiguationError m => m
  | .pageError m => m
  | .otherExn m => m

/-- Embedding of `get_wikipedia_summary` (ReAct.py lines 29-37). The external
`wikipedia.summary` client is a parameter returning either a summary string or
a raised exception. The try/except chain is embedded as an ordered match:
`DisambiguationError` is formatted with the `f"Disambiguation error: {e}"`
template, `PageError` yields the literal `"Page not found."`, and the
catch-all returns `str(e)`. The `Except` return type records whether the
function itself can raise; `.ok` means it returns normally. -/
def get_wikipedia_summary (wikipediaSummary : String → Except PyExn String)
    (query : String) : Except PyExn String :=
  match wikipediaSummary query with
  | .ok s => .ok s
  | .error (.disambiguationError m) => .ok ("Disambiguation error: " ++ m)
  | .error (.pageError _) => .ok "Page not found."
  | .error e => .ok (strOfExn e)

/-- C3: when the Wikipedia client raises a disambiguation error or a
page-not-found error, `get_wikipedia_summary` returns normally with a plain
string describing the condition, rather than propagating the exception. -/
theorem wikipedia_disambiguation_and_notfound_become_strings
    (wikipediaSummary : String → Except PyExn String) (query msg : String) :
    (wikipediaSummary query = .error (.disambiguationError msg) →
      get_wikipedia_summary wikipediaSummary query =
        .ok ("Disambiguation error: " ++ msg)) ∧
    (wikipediaSummary query = .error (.pageError msg) →
      get_wikipedia_summary wikipediaSummary query = .ok "Page not found.") := by
  constructor <;> intro h <;> simp [get_wikipedia_summary, h]

/-- A Wikipedia client that always raises a disambiguation error. -/
def ambiguousClient : String → Except PyExn String :=
  fun _ => .error (.disambiguationError "Mercury may refer to: ...")

/-- A Wikipedia client that always raises a page-not-found error. -/
def notFoundClient : String → Except PyExn String :=
  fun _ => .error (.pageError "no page matched")

/-- Witness for C3 at concrete clients and a concrete query. -/
theorem wikipedia_disambiguation_and_notfound_become_strings_witness :
    get_wikipedia_summary ambiguousClient "Mercury" =
      .ok ("Disambiguation error: " ++ "Mercury may refer to: ...") ∧
    get_wikipedia_summary notFoundClient "Zzzxq" = .ok "Page not found." :=
  ⟨(wikipedia_disambiguation_and_notfound_become_strings ambiguousClient
      "Mercury" "Mercury may refer to: ...").1 rfl,
   (wikipedia_disambiguation_and_notfound_become_strings notFoundClient
      "Zzzxq" "no page matched").2 rfl⟩

/-- C10: `get_wikipedia_summary` is total over exceptions: whatever the client
does, it returns normally with some string (never `.error`), and when the
client raises an exception other than disambiguation or page-not-found, the
returned string is the stringified exception. -/
theorem wikipedia_total_over_exceptions
    (wikipediaSummary : String → Except PyExn String) (query : String) :
    (∃ s, get_wikipedia_summary wikipediaSummary query = .ok s) ∧
    (∀ msg, wikipediaSummary query = .error (.otherExn msg) →
      get_wikipedia_summary wikipediaSummary query = .ok msg) := by
  constructor
  · match h : wikipediaSummary query with
    | .ok s => exact ⟨s, by simp [get_wikipedia_summary, h]⟩
    | .error (.disambiguationError m) =>
        exact ⟨"Disambiguation error: " ++ m, by simp [get_wikipedia_summary, h]⟩
    | .error (.pageError m) =>
        exact ⟨"Page not found.", by simp [get_wikipedia_summary, h]⟩
    | .error (.otherExn m) =>
        exact ⟨m, by simp [get_wikipedia_summary, h, strOfExn]⟩
  · intro msg h
    simp [get_wikipedia_summary, h, strOfExn]

/-- A Wikipedia client that always raises a generic exception (for example a
network timeout). -/
def timeoutClient : String → Except PyExn String :=
  fun _ => .error (.otherExn "HTTPTimeoutError: request timed out")

/-- Witness for C10 at a concrete client and query. -/
theorem wikipedia_total_over_exceptions_witness :
    (∃ s, get_wikipedia_summary timeoutClient "Lean" = .ok s) ∧
    get_wikipedia_summary timeoutClient "Lean" =
      .ok "HTTPTimeoutError: request timed out" :=
  ⟨(wikipedia_total_over_exceptions timeoutClient "Lean").1,
   (wikipedia_total_over_exceptions timeoutClient "Lean").2
     "HTTPTimeoutError: request timed out" rfl⟩

/-! ## Interactive loop (`main`, ReAct.py lines 102-109) -/

/-- The value returned by `agent_executor.ainvoke`: a dict whose `"output"`
entry holds the final answer text. -/
structure AgentResponse where
  output : String
deriving DecidableEq, Repr

/-- Observable events of one run of the interactive loop, in order: an agent
invocation (`agent_executor.ainvoke({"input": query})`) and a print of the
response (`print("\n📣 Response:\n", response["output"])`, recorded as the
label argument and the text argument). The startup banner print is constant
and omitted. -/
inductive Event where
  | agentInvoked (query : String)
  | printed (label : String) (text : String)
deriving DecidableEq, Repr

/-- How the loop ends: `exited` means the `break` on `"quit"` was reached and
the process terminates normally with exit code 0; `crashed e` means an
exception `e` escaped the loop body uncaught (there is no try/except inside
`main`), aborting the whole process with a traceback. -/
inductive RunOutcome where
  | exited
  | crashed (exn : String)
deriving DecidableEq, Repr

/-- The constant first argument of the response print on ReAct.py line 109. -/
def responseLabel : String := "\n📣 Response:\n"

/-- Embedding of the Python string method `.lower()` used on ReAct.py line
106: lowercase the string character by character. -/
def pyLower (s : String) : String := String.mk (s.data.map Char.toLower)

/-- Embedding of the `while True` loop of `main` (ReAct.py lines 104-109).
The stdin lines are a list; `input()` on an exhausted stream raises
`EOFError`. Each iteration reads a line, breaks if it lowercases to
`"quit"`, otherwise awaits `ainvoke` on the unmodified line: a raised
exception propagates (crashing the loop), a normal result is printed with
the constant label and the loop continues. Returns the ordered event trace
and the outcome. -/
def mainLoop (ainvoke : String → Except String AgentResponse) :
    List String → List Event × RunOutcome
  | [] => ([], .crashed "EOFError")
  | query :: rest =>
    if pyLower query = "quit" then ([], .exited)
    else
      match ainvoke query with
      | .error e => ([.agentInvoked query], .crashed e)
      | .ok response =>
        let r := mainLoop ainvoke rest
        (.agentInvoked query :: .printed responseLabel response.output :: r.1, r.2)

/-- An agent whose provider call always fails, modelling an LLM transport or
auth failure (ProviderError) raised out of `ainvoke`. -/
def providerFailingInvoke : String → Except String AgentResponse :=
  fun _ => .error "ProviderError"

/-- Counterexample to C1: with a provider that fails on the first query, the
loop does not surface an error message and continue to the next query; the
exception escapes, the run crashes, and the second stdin line is never read
(no event mentions it), contrary to the claim that a ProviderError is fatal
only to that run. -/
theorem provider_error_crashes_loop_counterexample :
    mainLoop providerFailingInvoke ["hello", "second question"] =
      ([Event.agentInvoked "hello"], RunOutcome.crashed "ProviderError") ∧
    (mainLoop providerFailingInvoke ["hello", "second question"]).2 ≠
      RunOutcome.exited ∧
    Event.agentInvoked "second question" ∉
      (mainLoop providerFailingInvoke ["hello", "second question"]).1 := by
  refine ⟨rfl, by decide, by decide⟩

/-- C1 as amended: an exception raised by the agent invocation (such as a
provider failure) is not caught by the interactive loop; it propagates,
terminating the process after the failing invocation, and no later stdin
line is processed. -/
theorem provider_error_propagates
    (ainvoke : String → Except String AgentResponse) (query : String)
    (rest : List String) (e : String)
    (hq : pyLower query ≠ "quit") (he : ainvoke query = .error e) :
    mainLoop ainvoke (query :: rest) =
      ([Event.agentInvoked query], RunOutcome.crashed e) := by
  simp [mainLoop, hq, he]

/-- Witness for the amended C1 at a concrete agent and input stream. -/
theorem provider_error_propagates_witness :
    mainLoop providerFailingInvoke ["hello"] =
      ([Event.agentInvoked "hello"], RunOutcome.crashed "ProviderError") :=
  provider_error_propagates providerFailingInvoke "hello" [] "ProviderError"
    (by decide) rfl

/-- C2: a line that equals `"quit"` under case-insensitive comparison makes
the loop terminate immediately with normal exit (code 0) and no agent
invocation at all; any other line is forwarded unchanged as the query of a
new agent invocation (the first event of the iteration is `agentInvoked`
with the exact input line). -/
theorem quit_exits_other_input_forwarded
    (ainvoke : String → Except String AgentResponse) (query : String)
    (rest : List String) :
    (pyLower query = "quit" →
      mainLoop ainvoke (query :: rest) = ([], RunOutcome.exited)) ∧
    (pyLower query ≠ "quit" →
      ∃ tl out, mainLoop ainvoke (query :: rest) =
        (Event.agentInvoked query :: tl, out)) := by
  constructor
  · intro h
    simp [mainLoop, h]
  · intro h
    match he : ainvoke query with
    | .error e =>
        exact ⟨[], .crashed e, by simp [mainLoop, h, he]⟩
    | .ok response =>
        exact ⟨Event.printed responseLabel response.output ::
            (mainLoop ainvoke rest).1, (mainLoop ainvoke rest).2,
          by simp [mainLoop, h, he]⟩

/-- An agent that always answers with a fixed final answer. -/
def okInvoke : String → Except String AgentResponse :=
  fun _ => .ok { output := "The answer is 42." }

/-- Witness for C2: the mixed-case line QUIT exits immediately with no agent
invocation, and the line hello is forwarded unchanged. -/
theorem quit_exits_other_input_forwarded_witness :
    mainLoop okInvoke ["QUIT", "later line"] = ([], RunOutcome.exited) ∧
    ∃ tl out, mainLoop okInvoke ["hello"] =
      (Event.agentInvoked "hello" :: tl, out) :=
  ⟨(quit_exits_other_input_forwarded okInvoke "QUIT" ["later line"]).1 (by decide),
   (quit_exits_other_input_forwarded okInvoke "hello" []).2 (by decide)⟩

/-- Every print of a response in any run of the loop uses the constant label
`responseLabel` as its first argument. -/
theorem mainLoop_printed_label
    (ainvoke : String → Except String AgentResponse) (inputs : List String) :
    ∀ l t, Event.printed l t ∈ (mainLoop ainvoke inputs).1 →
      l = responseLabel := by
  induction inputs with
  | nil => intro l t h; simp [mainLoop] at h
  | cons query rest ih =>
      intro l t h
      by_cases hq : pyLower query = "quit"
      · simp [mainLoop, hq] at h
      · match he : ainvoke query with
        | .error e =>
            simp [mainLoop, hq, he] at h
        | .ok response =>
            simp [mainLoop, hq, he] at h
            rcases h with ⟨h1, h2⟩ | h
            · exact h1
            · exact ih l t h

/-- C8: for an agent run that finishes with a final answer, the loop prints
the answer text immediately after the invocation, prefixed by the constant
label; and every response print in the whole run uses that same fixed
label. -/
theorem final_answer_printed_with_fixed_label
    (ainvoke : String → Except String AgentResponse) (query : String)
    (rest : List String) (response : AgentResponse)
    (hq : pyLower query ≠ "quit") (hr : ainvoke query = .ok response) :
    (∃ tl, (mainLoop ainvoke (query :: rest)).1 =
      Event.agentInvoked query ::
        Event.printed responseLabel response.output :: tl) ∧
    (∀ l t, Event.printed l t ∈ (mainLoop ainvoke (query :: rest)).1 →
      l = responseLabel) := by
  refine ⟨⟨(mainLoop ainvoke rest).1, by simp [mainLoop, hq, hr]⟩, ?_⟩
  exact mainLoop_printed_label ainvoke (query :: rest)

/-- Witness for C8 at a concrete agent and input stream. -/
theorem final_answer_printed_with_fixed_label_witness :
    (∃ tl, (mainLoop okInvoke ["hello", "quit"]).1 =
      Event.agentInvoked "hello" ::
        Event.printed responseLabel "The answer is 42." :: tl) ∧
    (∀ l t, Event.printed l t ∈ (mainLoop okInvoke ["hello", "quit"]).1 →
      l = responseLabel) :=
  final_answer_printed_with_fixed_label okInvoke "hello" ["quit"]
    { output := "The answer is 42." } (by decide) rfl

/-! ## Configuration and startup (ReAct.py lines 16-20, 60-96) -/

/-- The process environment: a mapping from variable name to optional value,
as read by `os.getenv` (returns `None` when the variable is absent). -/
def EnvMap : Type := String → Option String

/-- `openai_api_key = os.getenv("subscription_key")` (ReAct.py line 17). -/
def openai_api_key (env : EnvMap) : Option String := env "subscription_key"

/-- `deployment = os.getenv("deployment")` (ReAct.py line 18). -/
def deployment (env : EnvMap) : Option String := env "deployment"

/-- `endpoint = os.getenv("endpoint")` (ReAct.py line 19). -/
def endpoint (env : EnvMap) : Option String := env "endpoint"

/-- `api_version = os.getenv("api_version")` (ReAct.py line 20). -/
def api_version (env : EnvMap) : Option String := env "api_version"

/-- The configured LLM client (the keyword arguments passed to
`AzureChatOpenAI` on ReAct.py lines 60-66, after validation). -/
structure AzureChatOpenAIClient where
  azure_deployment : String
  azure_endpoint : String
  api_key : String
  api_version : String
  temperature : Int
deriving DecidableEq, Repr

/-- The fatal configuration failures of startup: each names the missing
credential. -/
inductive ConfigError where
  | missingApiKey
  | missingDeployment
  | missingEndpoint
  | missingApiVersion
deriving DecidableEq, Repr

/-- Modelled from the spec: the `AzureChatOpenAI` constructor is external
library code not present under `src/`; per the spec, missing credentials —
API key, deployment identifier, endpoint URL, API version — are the fatal
configuration case and abort startup with a ConfigError. The constructor
checks the four credentials and fails on the first missing one. -/
def mkAzureChatOpenAI (dep ep key ver : Option String) (temperature : Int) :
    Except ConfigError AzureChatOpenAIClient :=
  match key, dep, ep, ver with
  | some k, some d, some e, some v =>
      .ok { azure_deployment := d, azure_endpoint := e, api_key := k,
            api_version := v, temperature := temperature }
  | none, _, _, _ => .error .missingApiKey
  | _, none, _, _ => .error .missingDeployment
  | _, _, none, _ => .error .missingEndpoint
  | _, _, _, none => .error .missingApiVersion

/-- The memory configuration: the keyword arguments passed to
`ConversationSummaryBufferMemory` on ReAct.py lines 72-78. -/
structure MemoryCfg where
  memory_key : String
  max_token_limit : Nat
  return_messages : Bool
  k : Nat
deriving DecidableEq, Repr

/-- The application state built at import time (ReAct.py lines 60-96): the
validated LLM client, the memory configuration, and the executor flags from
`AgentExecutor.from_agent_and_tools`. -/
structure AppState where
  llm : AzureChatOpenAIClient
  memory : MemoryCfg
  verbose : Bool
  handle_parsing_errors : Bool
deriving DecidableEq, Repr

/-- Embedding of the startup sequence (ReAct.py lines 16-96): read the four
environment variables, construct the LLM client with `temperature=0`, then
the memory with `max_token_limit=150`, `k=10`, `memory_key="chat_history"`,
`return_messages=True`, and the executor with `verbose=True`,
`handle_parsing_errors=True`. A ConfigError from the client constructor
aborts startup. -/
def startup (env : EnvMap) : Except ConfigError AppState :=
  match mkAzureChatOpenAI (deployment env) (endpoint env)
      (openai_api_key env) (api_version env) 0 with
  | .error e => .error e
  | .ok llm =>
      .ok { llm := llm,
            memory := { memory_key := "chat_history", max_token_limit := 150,
                        return_messages := true, k := 10 },
            verbose := true,
            handle_parsing_errors := true }

/-- The whole program: run startup, and only when it succeeds enter the
interactive loop (the `agent_executor` the loop awaits is a function of the
built application state). -/
inductive ProgramResult where
  | configFailure (e : ConfigError)
  | ran (events : List Event) (outcome : RunOutcome)
deriving DecidableEq, Repr

/-- Embedding of the module as executed: startup precedes the loop of
`main`; a ConfigError aborts before any line is read and no agent is ever
invoked. -/
def runProgram (ainvoke : AppState → String → Except String AgentResponse)
    (env : EnvMap) (inputs : List String) : ProgramResult :=
  match startup env with
  | .error e => .configFailure e
  | .ok st =>
      let r := mainLoop (ainvoke st) inputs
      .ran r.1 r.2

/-- C4: if any of the four required credentials is absent from the
environment, startup fails with a ConfigError and the program aborts before
the interactive loop begins (no events, no agent invocation). -/
theorem missing_credentials_abort_startup
    (ainvoke : AppState → String → Except String AgentResponse) (env : EnvMap)
    (inputs : List String)
    (h : openai_api_key env = none ∨ deployment env = none ∨
      endpoint env = none ∨ api_version env = none) :
    ∃ e : ConfigError, startup env = .error e ∧
      runProgram ainvoke env inputs = .configFailure e := by
  match hk : openai_api_key env, hd : deployment env, he : endpoint env,
      hv : api_version env with
  | none, _, _, _ =>
      exact ⟨.missingApiKey, by simp [startup, mkAzureChatOpenAI, hk],
        by simp [runProgram, startup, mkAzureChatOpenAI, hk]⟩
  | some k, none, _, _ =>
      exact ⟨.missingDeployment, by simp [startup, mkAzureChatOpenAI, hk, hd],
        by simp [runProgram, startup, mkAzureChatOpenAI, hk, hd]⟩
  | some k, some d, none, _ =>
      exact ⟨.missingEndpoint, by simp [startup, mkAzureChatOpenAI, hk, hd, he],
        by simp [runProgram, startup, mkAzureChatOpenAI, hk, hd, he]⟩
  | some k, some d, some e, none =>
      exact ⟨.missingApiVersion,
        by simp [startup, mkAzureChatOpenAI, hk, hd, he, hv],
        by simp [runProgram, startup, mkAzureChatOpenAI, hk, hd, he, hv]⟩
  | some k, some d, some e, some v =>
      simp [hk, hd, he, hv] at h

/-- An environment with no variables set at all. -/
def emptyEnv : EnvMap := fun _ => none

/-- A trivial agent for closed evaluations of `runProgram`. -/
def trivialAgent : AppState → String → Except String AgentResponse :=
  fun _ _ => .ok { output := "ok" }

/-- Witness for C4 at the empty environment. -/
theorem missing_credentials_abort_startup_witness :
    ∃ e : ConfigError, startup emptyEnv = .error e ∧
      runProgram trivialAgent emptyEnv ["hello"] = .configFailure e :=
  missing_credentials_abort_startup trivialAgent emptyEnv ["hello"]
    (Or.inl rfl)

/-- All recognized configuration options of the program, as a record: the
four credentials read from the environment (ReAct.py lines 17-20), the
temperature literal (line 65), the memory limits (lines 75 and 77), and the
maximum number of reasoning cycles (never set: `AgentExecutor` is built on
lines 90-96 without a `max_iterations` argument, recorded as `none`). The
`argv` parameter is the command line the process received; the source never
reads `sys.argv`, so no option depends on it. -/
structure AppConfig where
  deployment : Option String
  endpoint : Option String
  api_key : Option String
  api_version : Option String
  temperature : Int
  max_token_limit : Nat
  k : Nat
  max_iterations : Option Nat
deriving DecidableEq, Repr

/-- How the source populates every recognized configuration option, as a
function of the process inputs (command line and environment). -/
def buildConfig (argv : List String) (env : EnvMap) : AppConfig :=
  { deployment := deployment env,
    endpoint := endpoint env,
    api_key := openai_api_key env,
    api_version := api_version env,
    temperature := 0,
    max_token_limit := 150,
    k := 10,
    max_iterations := none }

/-- An environment that sets a temperature of 1 (and every other variable to
the placeholder value cfg). -/
def envTempOne : EnvMap := fun name =>
  if name = "temperature" then some "1" else some "cfg"

/-- An environment that sets a temperature of 2 (and every other variable to
the placeholder value cfg). -/
def envTempTwo : EnvMap := fun name =>
  if name = "temperature" then some "2" else some "cfg"

/-- Counterexample to C5: the claim says every recognized option, including
temperature, the memory max-token-limit and the turn count `k`, is sourced
from the environment and not hardcoded. But two environments that disagree
about temperature produce identical configurations, with temperature 0,
max-token-limit 150 and k 10 regardless: these options are hardcoded
literals in the program, not read from the environment. -/
theorem hardcoded_options_counterexample :
    envTempOne "temperature" ≠ envTempTwo "temperature" ∧
    buildConfig [] envTempOne = buildConfig [] envTempTwo ∧
    (buildConfig [] envTempOne).temperature = 0 ∧
    (buildConfig [] envTempOne).max_token_limit = 150 ∧
    (buildConfig [] envTempOne).k = 10 := by
  refine ⟨by decide, by rfl, rfl, rfl, rfl⟩

/-- C5 as amended: the four credentials (deployment identifier, endpoint
URL, API key, API version) are sourced from the environment; temperature,
the memory max-token-limit and the turn count `k` are the fixed literals 0,
150 and 10, independent of the environment; the maximum number of reasoning
cycles is not configured at all; and no option is sourced from CLI flags
(the configuration is independent of `argv`). -/
theorem config_sourcing (argv argvOther : List String) (env : EnvMap) :
    (buildConfig argv env).deployment = env "deployment" ∧
    (buildConfig argv env).endpoint = env "endpoint" ∧
    (buildConfig argv env).api_key = env "subscription_key" ∧
    (buildConfig argv env).api_version = env "api_version" ∧
    (buildConfig argv env).temperature = 0 ∧
    (buildConfig argv env).max_token_limit = 150 ∧
    (buildConfig argv env).k = 10 ∧
    (buildConfig argv env).max_iterations = none ∧
    buildConfig argv env = buildConfig argvOther env := by
  exact ⟨rfl, rfl, rfl, rfl, rfl, rfl, rfl, rfl, rfl⟩

/-- Helper: a client successfully built by `mkAzureChatOpenAI` carries
exactly the temperature that was passed in. -/
theorem mkAzureChatOpenAI_temperature (dep ep key ver : Option String)
    (t : Int) (c : AzureChatOpenAIClient)
    (h : mkAzureChatOpenAI dep ep key ver t = .ok c) : c.temperature = t := by
  match hk : key, hd : dep, he : ep, hv : ver with
  | some k, some d, some e, some v =>
      simp [mkAzureChatOpenAI] at h
      exact h ▸ rfl
  | none, _, _, _ => simp [mkAzureChatOpenAI] at h
  | some k, none, _, _ => simp [mkAzureChatOpenAI] at h
  | some k, some d, none, _ => simp [mkAzureChatOpenAI] at h
  | some k, some d, some e, none => simp [mkAzureChatOpenAI] at h

/-- C7: whenever startup succeeds, the LLM client it builds has temperature
0 — the completion request configuration is deterministic by construction,
whatever the environment contains. -/
theorem llm_temperature_is_zero (env : EnvMap) (st : AppState)
    (h : startup env = .ok st) : st.llm.temperature = 0 := by
  unfold startup at h
  match hm : mkAzureChatOpenAI (deployment env) (endpoint env)
      (openai_api_key env) (api_version env) 0 with
  | .error e => rw [hm] at h; exact absurd h (by simp)
  | .ok llm =>
      rw [hm] at h
      have hc : st.llm = llm := by
        cases h with
        | refl => rfl
      rw [hc]
      exact mkAzureChatOpenAI_temperature _ _ _ _ _ _ hm

/-- An environment where all four credentials are present. -/
def fullEnv : EnvMap := fun _ => some "value"

/-- The application state that startup builds from `fullEnv`. -/
def fullState : AppState :=
  { llm := { azure_deployment := "value", azure_endpoint := "value",
             api_key := "value", api_version := "value", temperature := 0 },
    memory := { memory_key := "chat_history", max_token_limit := 150,
                return_messages := true, k := 10 },
    verbose := true,
    handle_parsing_errors := true }

/-- Witness for C7: startup on a fully populated environment yields a client
with temperature 0. -/
theorem llm_temperature_is_zero_witness : fullState.llm.temperature = 0 :=
  llm_temperature_is_zero fullEnv fullState rfl

/-! ## Clock tool (`get_current_datetime`, ReAct.py lines 26-27) -/

/-- The decimal digit character for the least significant digit of `n`. -/
def natDigit (n : Nat) : Char := Char.ofNat (48 + n % 10)

/-- The two-digit zero-padded rendering used by `%02d` fields of
`datetime.isoformat` (month, day, hour, minute, second; always in 0..99). -/
def pad2Chars (n : Nat) : List Char := [natDigit (n / 10), natDigit n]

/-- The four-digit zero-padded rendering of the year (always in 1..9999 for
a `datetime` value). -/
def pad4Chars (n : Nat) : List Char :=
  [natDigit (n / 1000), natDigit (n / 100), natDigit (n / 10), natDigit n]

/-- The six-digit zero-padded rendering of the microsecond field (always in
0..999999). -/
def pad6Chars (n : Nat) : List Char :=
  [natDigit (n / 100000), natDigit (n / 10000), natDigit (n / 1000),
   natDigit (n / 100), natDigit (n / 10), natDigit n]

/-- A Python `datetime.datetime` value as returned by `datetime.now()`. The
`datetime` type guarantees 1 ≤ month ≤ 12, 1 ≤ day ≤ 31, hour ≤ 23,
minute ≤ 59, second ≤ 59, microsecond ≤ 999999, 1 ≤ year ≤ 9999. -/
structure PyDateTime where
  year : Nat
  month : Nat
  day : Nat
  hour : Nat
  minute : Nat
  second : Nat
  microsecond : Nat
deriving DecidableEq, Repr

/-- The range invariants of a Python `datetime` value. -/
def validDateTime (d : PyDateTime) : Prop :=
  1 ≤ d.year ∧ d.year ≤ 9999 ∧ 1 ≤ d.month ∧ d.month ≤ 12 ∧
  1 ≤ d.day ∧ d.day ≤ 31 ∧ d.hour ≤ 23 ∧ d.minute ≤ 59 ∧
  d.second ≤ 59 ∧ d.microsecond ≤ 999999

instance (d : PyDateTime) : Decidable (validDateTime d) := by
  unfold validDateTime; infer_instance

/-- Embedding of `datetime.isoformat()`: the string
`YYYY-MM-DDTHH:MM:SS` followed by `.ffffff` exactly when the microsecond
field is nonzero. -/
def isoformat (d : PyDateTime) : String :=
  String.mk (pad4Chars d.year ++ ['-'] ++ pad2Chars d.month ++ ['-'] ++
    pad2Chars d.day ++ ['T'] ++ pad2Chars d.hour ++ [':'] ++
    pad2Chars d.minute ++ [':'] ++ pad2Chars d.second ++
    (if d.microsecond = 0 then [] else ['.'] ++ pad6Chars d.microsecond))

/-- Embedding of `get_current_datetime` (ReAct.py lines 26-27): whatever
positional and keyword arguments the agent framework passes are accepted and
ignored (`*args, **kwargs`), and the result is `datetime.now().isoformat()`.
The current instant is a parameter; the body contains no operation that can
raise, so the return type is plain `String`. -/
def get_current_datetime (now : PyDateTime) (args : List String)
    (kwargs : List (String × String)) : String :=
  isoformat now

/-- Recognizer for the ISO-8601 extended date-time shape
`YYYY-MM-DDTHH:MM:SS` with an optional `.ffffff` fraction. -/
def iso8601Shape : List Char → Bool
  | y1 :: y2 :: y3 :: y4 :: '-' :: m1 :: m2 :: '-' :: d1 :: d2 :: 'T' ::
      h1 :: h2 :: ':' :: n1 :: n2 :: ':' :: s1 :: s2 :: rest =>
    [y1, y2, y3, y4, m1, m2, d1, d2, h1, h2, n1, n2, s1, s2].all Char.isDigit &&
    (match rest with
     | [] => true
     | '.' :: f => f.length == 6 && f.all Char.isDigit
     | _ => false)
  | _ => false

/-- A string is in ISO-8601 date-time shape when its characters are. -/
def isISO8601 (s : String) : Bool := iso8601Shape s.data

/-- Helper: the digit characters produced by `natDigit` are decimal digits. -/
theorem natDigit_isDigit (n : Nat) : (natDigit n).isDigit = true := by
  have h10 : ∀ r, r < 10 → (Char.ofNat (48 + r)).isDigit = true := by decide
  exact h10 (n % 10) (Nat.mod_lt n (by omega))

/-- C6: the clock tool ignores its arguments — any two invocations at the
same instant return the same string — and for every valid datetime the
returned string is in ISO-8601 shape. It cannot fail: its embedding returns
a plain `String` for every input, mirroring a body with no raising
operation. -/
theorem clock_returns_iso8601_and_ignores_args (now : PyDateTime)
    (args argsOther : List String)
    (kwargs kwargsOther : List (String × String))
    (h : validDateTime now) :
    get_current_datetime now args kwargs =
      get_current_datetime now argsOther kwargsOther ∧
    isISO8601 (get_current_datetime now args kwargs) = true := by
  refine ⟨rfl, ?_⟩
  unfold get_current_datetime isoformat isISO8601
  by_cases hm : now.microsecond = 0 <;>
    simp [hm, pad4Chars, pad2Chars, pad6Chars, iso8601Shape, natDigit_isDigit]

/-- Witness for C6: a concrete invocation with nonempty ignored arguments. -/
theorem clock_returns_iso8601_and_ignores_args_witness :
    get_current_datetime
        { year := 2026, month := 10, day := 12, hour := 9, minute := 30,
          second := 5, microsecond := 123456 } ["unused input"] [] =
      get_current_datetime
        { year := 2026, month := 10, day := 12, hour := 9, minute := 30,
          second := 5, microsecond := 123456 } [] [("key", "value")] ∧
    isISO8601 (get_current_datetime
        { year := 2026, month := 10, day := 12, hour := 9, minute := 30,
          second := 5, microsecond := 123456 } ["unused input"] []) = true :=
  clock_returns_iso8601_and_ignores_args
    { year := 2026, month := 10, day := 12, hour := 9, minute := 30,
      second := 5, microsecond := 123456 }
    ["unused input"] [] [] [("key", "value")] (by decide)

/-! ## Memory compaction (spec §3, §4.2; configured on ReAct.py lines 72-78)

The compaction policy itself is implemented by the external
`ConversationSummaryBufferMemory` class and is not present under `src/`;
the source only configures it with `max_token_limit=150` and `k=10`. The
definitions below are therefore modelled from the specification text. -/

/-- The speaker of a recorded turn (spec §3). -/
inductive Role where
  | user
  | assistant
deriving DecidableEq, Repr

/-- A recorded conversation turn (spec §3): role, content, timestamp;
immutable once recorded. -/
structure Turn where
  role : Role
  content : String
  timestamp : Nat
deriving DecidableEq, Repr

/-- The estimated token size of one turn, taken as the length of its
content. -/
def turnSize (t : Turn) : Nat := t.content.length

/-- The combined estimated size of a sequence of recent turns. -/
def recentSize (ts : List Turn) : Nat := (ts.map turnSize).sum

/-- The bounded conversational memory (spec §3): a running summary, possibly
empty, plus the raw recent turns. -/
structure MemoryState where
  summary : String
  recent_turns : List Turn
deriving DecidableEq, Repr

/-- Modelled from the spec: the eviction loop of `compact()` (spec §4.2).
While the combined estimated size of the retained turns and the summary
exceeds the configured budget, the oldest turn is evicted and folded into
the running summary by the external summarization collaborator
`summarize`; eviction stops when the state fits the budget or no turns
remain. The spec leaves the precedence between the turn-count trigger and
the token trigger open (§9); the invariant of §3 constrains the token
trigger, which is what is modelled here. -/
def compactAux (summarize : String → List Turn → String) (budget : Nat) :
    List Turn → String → String × List Turn
  | [], s => (s, [])
  | t :: ts, s =>
    if budget < recentSize (t :: ts) + s.length then
      compactAux summarize budget ts (summarize s [t])
    else (s, t :: ts)

/-- Modelled from the spec: `compact()` (spec §4.2) applied to a memory
state. -/
def compact (summarize : String → List Turn → String) (budget : Nat)
    (m : MemoryState) : MemoryState :=
  let r := compactAux summarize budget m.recent_turns m.summary
  { summary := r.1, recent_turns := r.2 }

/-- Helper: the eviction loop keeps the combined size within the budget,
provided the summaries the collaborator produces never exceed the budget
and the incoming summary is within it. -/
theorem compactAux_size_le (summarize : String → List Turn → String)
    (budget : Nat) (hbound : ∀ s ts, (summarize s ts).length ≤ budget) :
    ∀ (turns : List Turn) (s : String), s.length ≤ budget →
      recentSize (compactAux summarize budget turns s).2 +
        (compactAux summarize budget turns s).1.length ≤ budget := by
  intro turns
  induction turns with
  | nil =>
      intro s hs
      simpa [compactAux, recentSize] using hs
  | cons t ts ih =>
      intro s hs
      by_cases hgt : budget < recentSize (t :: ts) + s.length
      · simpa [compactAux, hgt] using ih (summarize s [t]) (hbound s [t])
      · simpa [compactAux, hgt] using Nat.le_of_not_lt hgt

/-- Helper: once the running summary is nonempty, the eviction loop never
returns an empty summary. -/
theorem compactAux_summary_ne_empty (summarize : String → List Turn → String)
    (budget : Nat) (hne : ∀ s ts, ts ≠ [] → summarize s ts ≠ "") :
    ∀ (turns : List Turn) (s : String), s ≠ "" →
      (compactAux summarize budget turns s).1 ≠ "" := by
  intro turns
  induction turns with
  | nil => intro s hs; simpa [compactAux] using hs
  | cons t ts ih =>
      intro s hs
      by_cases hgt : budget < recentSize (t :: ts) + s.length
      · simpa [compactAux, hgt] using
          ih (summarize s [t]) (hne s [t] (by simp))
      · simpa [compactAux, hgt] using hs

/-- C9: after every compaction, the combined estimated size of the retained
recent turns plus the summary is at most the configured budget, and the
summary is non-empty whenever the compaction evicted any turn. Hypotheses:
the summarization collaborator returns summaries within the budget and
returns a non-empty summary for a non-empty batch of evicted turns, and the
summary entering the compaction is itself within the budget. -/
theorem compaction_bounds_size_and_summarizes
    (summarize : String → List Turn → String) (budget : Nat)
    (m : MemoryState)
    (hbound : ∀ s ts, (summarize s ts).length ≤ budget)
    (hne : ∀ s ts, ts ≠ [] → summarize s ts ≠ "")
    (hinit : m.summary.length ≤ budget) :
    recentSize (compact summarize budget m).recent_turns +
      (compact summarize budget m).summary.length ≤ budget ∧
    ((compact summarize budget m).recent_turns.length <
        m.recent_turns.length →
      (compact summarize budget m).summary ≠ "") := by
  constructor
  · exact compactAux_size_le summarize budget hbound m.recent_turns
      m.summary hinit
  · intro hlt
    match hm : m.recent_turns with
    | [] =>
        rw [hm] at hlt
        simp [compact, compactAux, hm] at hlt
    | t :: ts =>
        rw [hm] at hlt
        by_cases hgt : budget < recentSize (t :: ts) + m.summary.length
        · have : (compact summarize budget m).summary =
              (compactAux summarize budget ts (summarize m.summary [t])).1 := by
            simp [compact, hm, compactAux, hgt]
          rw [this]
          exact compactAux_summary_ne_empty summarize budget hne ts
            (summarize m.summary [t]) (hne m.summary [t] (by simp))
        · exfalso
          have : (compact summarize budget m).recent_turns = t :: ts := by
            simp [compact, hm, compactAux, hgt]
          rw [this] at hlt
          exact Nat.lt_irrefl _ hlt

/-- A summarization collaborator that always returns the one-character
summary S: within any positive budget and non-empty. -/
def constSummarize : String → List Turn → String := fun _ _ => "S"

/-- A concrete memory whose two recorded turns overflow a budget of 8. -/
def overflowingMemory : MemoryState :=
  { summary := "",
    recent_turns :=
      [ { role := .user, content := "hello agent", timestamp := 1 },
        { role := .assistant, content := "hi", timestamp := 2 } ] }

/-- Witness for C9: compacting the concrete overflowing memory with budget 8
lands within the budget and leaves a non-empty summary. -/
theorem compaction_bounds_size_and_summarizes_witness :
    recentSize (compact constSummarize 8 overflowingMemory).recent_turns +
      (compact constSummarize 8 overflowingMemory).summary.length ≤ 8 ∧
    ((compact constSummarize 8 overflowingMemory).recent_turns.length <
        overflowingMemory.recent_turns.length →
      (compact constSummarize 8 overflowingMemory).summary ≠ "") :=
  compaction_bounds_size_and_summarizes constSummarize 8 overflowingMemory
    (fun _ _ => by show ("S").length ≤ 8; decide)
    (fun _ _ _ => by show ("S") ≠ ""; decide) (by decide)
